import Mathlib

/-!
Shallow embedding of kivy/uix/settings.py (the settings-configuration UI
module): the value-synchronization contract between setting items, their
panel and the backing configuration store; the JSON schema driven panel
construction; and the panel-container navigation state machine.

Python strings are modelled as Lean String.  Python None-or-string values
are modelled as Option String (Python treats both None and the empty
string as falsy; where the source tests truthiness of a string property,
the model tests for the empty string).  Store and container interactions
are made observable through an explicit event trace.
-/

set_option linter.unusedVariables false

namespace KivySettings

/-- Modelled from the spec: the external ConfigStore collaborator
(kivy.config.ConfigParser, explicitly out of scope of the source module),
a section/key string-value store assumed to provide get(section, key),
set(section, key, value) and write().  State is an association list from
(section, key) to the stored string; set updates an existing binding in
place or appends a new one; write persists to disk and does not change
the in-memory state. -/
structure ConfigParser where
  entries : List ((String × String) × String)
  deriving DecidableEq

def ConfigParser.get (c : ConfigParser) (sec key : String) : Option String :=
  (c.entries.find? (fun e => e.1 == (sec, key))).map (fun e => e.2)

def ConfigParser.set (c : ConfigParser) (sec key v : String) : ConfigParser :=
  if (c.entries.find? (fun e => e.1 == (sec, key))).isSome then
    ⟨c.entries.map (fun e => if e.1 == (sec, key) then ((sec, key), v) else e)⟩
  else
    ⟨c.entries ++ [((sec, key), v)]⟩

/-- Observable interactions of the settings widgets with the store and the
owning Settings container: a store read, a store write of one key, a flush
to disk, and the on_config_change notification dispatched to the container
(carrying the config object reference, section, key and new value, exactly
as in settings.dispatch at settings.py lines 571-572). -/
inductive Event where
  | get (sec key : String)
  | set (sec key value : String)
  | write
  | configChange (config : Option ConfigParser) (sec key value : String)
  deriving DecidableEq

def Event.isGet : Event → Bool
  | .get _ _ => true
  | _ => false

def Event.isSet : Event → Bool
  | .set _ _ _ => true
  | _ => false

def Event.isWrite : Event → Bool
  | .write => true
  | _ => false

def Event.isChange : Event → Bool
  | .configChange _ _ _ _ => true
  | _ => false

def countGet (t : List Event) : Nat := (t.filter Event.isGet).length

def countSet (t : List Event) : Nat := (t.filter Event.isSet).length

def countWrite (t : List Event) : Nat := (t.filter Event.isWrite).length

def countChange (t : List Event) : Nat := (t.filter Event.isChange).length

/-- SettingsPanel (settings.py lines 517-572), reduced to the state its
get_value/set_value methods consult: the attached ConfigParser (config,
None allowed) and whether a Settings container is attached (settings; the
source only tests its truthiness before dispatching, so it is modelled as
a Bool). -/
structure SettingsPanel where
  config : Option ConfigParser
  hasSettings : Bool
  deriving DecidableEq

/-- SettingsPanel.get_value (settings.py lines 548-559): if no config is
attached, return None without touching any store; otherwise read
config.get(section, key).  Returns the value together with the trace of
store events. -/
def SettingsPanel.get_value (p : SettingsPanel) (sec key : String) :
    Option String × List Event :=
  match p.config with
  | none => (none, [])
  | some c => (ConfigParser.get c sec key, [Event.get sec key])

/-- SettingsPanel.set_value (settings.py lines 561-572): read the current
stored value; if it equals the new value, return at once; otherwise, if a
config is attached, config.set then config.write; then, if a Settings
container is attached, dispatch on_config_change carrying the config
reference (the same, now mutated, object), section, key and new value. -/
def SettingsPanel.set_value (p : SettingsPanel) (sec key value : String) :
    SettingsPanel × List Event :=
  let g := SettingsPanel.get_value p sec key
  if g.1 = some value then (p, g.2)
  else
    let step : SettingsPanel × List Event :=
      match p.config with
      | none => (p, [])
      | some c =>
          ({ p with config := some (ConfigParser.set c sec key value) },
           [Event.set sec key value, Event.write])
    let notifyTrace : List Event :=
      if p.hasSettings then [Event.configChange step.1.config sec key value]
      else []
    (step.1, g.2 ++ step.2 ++ notifyTrace)

/-- SettingItem (settings.py lines 136-259), reduced to the state the
value-sync contract consults: section and key (StringProperty, default
None; None and the empty string are both falsy in the source guard, so an
unset binding is modelled as the empty string) and the value property
(ObjectProperty, default None). -/
structure SettingItem where
  sec : String
  key : String
  value : Option String
  deriving DecidableEq

/-- SettingItem.on_value (settings.py lines 252-259): the observer fired
when the value property changes.  If section or key is unset, do nothing;
otherwise coerce the value to a string (the identity here, since the model
domain is already String) and call panel.set_value. -/
def SettingItem.on_value (it : SettingItem) (p : SettingsPanel) (value : String) :
    SettingsPanel × List Event :=
  if it.sec = "" ∨ it.key = "" then (p, [])
  else SettingsPanel.set_value p it.sec it.key value

/-- Modelled from the spec and the Kivy property machinery the source
relies on (external to this module): committing an edit assigns the value
property, and an ObjectProperty dispatches its on_value observer exactly
when the assigned value differs from the current one.  So a commit of the
value the item already holds is a no-op, and otherwise the stored value is
updated and SettingItem.on_value runs. -/
def SettingItem.commit (it : SettingItem) (p : SettingsPanel) (v : String) :
    SettingItem × SettingsPanel × List Event :=
  if it.value = some v then (it, p, [])
  else
    let it1 : SettingItem := { it with value := some v }
    let r := SettingItem.on_value it1 p v
    (it1, r.1, r.2)

/-- SettingItem construction (settings.py lines 223-225): __init__ assigns
self.value = self.panel.get_value(self.section, self.key).  The value
property starts at None, so the assignment dispatches on_value exactly
when the read returns a value (SettingItem.commit models that property
assignment). -/
def SettingItem.init (p : SettingsPanel) (sec key : String) :
    SettingItem × SettingsPanel × List Event :=
  let it0 : SettingItem := { sec := sec, key := key, value := none }
  let g := SettingsPanel.get_value p sec key
  match g.1 with
  | none => (it0, p, g.2)
  | some s =>
      let r := SettingItem.commit it0 p s
      (r.1, r.2.1, g.2 ++ r.2.2)

/-- Python str(value) for the value property, as used by
SettingNumeric._validate: the value is a string or None, and str(None) is
the text None (which contains no dot). -/
def pyStrOfValue : Option String → String
  | none => "None"
  | some s => s

/-- The whitespace characters Python str.strip removes. -/
def isPySpace (c : Char) : Bool :=
  c = ' ' || c = '\t' || c = '\n' || c = '\r' || c = '\x0b' || c = '\x0c'

/-- Python str.strip on a character list: drop whitespace at both ends. -/
def pyStrip (cs : List Char) : List Char :=
  ((cs.dropWhile isPySpace).reverse.dropWhile isPySpace).reverse

def parseSign : List Char → Bool × List Char
  | '-' :: cs => (true, cs)
  | '+' :: cs => (false, cs)
  | cs => (false, cs)

def digitsToNat (cs : List Char) : Nat :=
  cs.foldl (fun acc c => acc * 10 + (c.toNat - 48)) 0

/-- Modelled from the spec: the CPython int(...) builtin (external to the
module) on a plain decimal literal: surrounding whitespace is stripped, an
optional single sign is allowed, then one or more decimal digits (digit
group underscores are outside the model domain).  str(int(...)) is then
the canonical integer string, Lean toString on Int. -/
def parsePyInt (s : String) : Option Int :=
  let cs := pyStrip s.toList
  let sg := parseSign cs
  if sg.2 ≠ [] ∧ sg.2.all Char.isDigit then
    some (if sg.1 then -(digitsToNat sg.2 : Int) else (digitsToNat sg.2 : Int))
  else none

/-- An exact decimal: value is num / 10 to the scale, negated when neg is
set; num carries no factor of 10 redundant with scale. -/
structure PyDecimal where
  neg : Bool
  num : Nat
  scale : Nat
  deriving DecidableEq

def stripTrailingZeros : Nat → Nat → Nat × Nat
  | n, 0 => (n, 0)
  | n, k + 1 => if n % 10 = 0 then stripTrailingZeros (n / 10) k else (n, k + 1)

def natDigits (n : Nat) : Nat := (toString n).length

/-- Modelled from the spec: the CPython float(...) builtin (external to
the module) on a plain decimal literal: surrounding whitespace stripped,
optional sign, digits with at most one dot and at least one digit overall
(exponent forms, inf and nan are outside the model domain).  The result is
kept as an exact decimal; to stay exact with respect to binary doubles and
shortest round-trip repr, literals are restricted to at most fifteen
significant digits and scale at most three hundred (in that range, a
decimal survives the double round-trip unchanged, so repr returns the
normalized literal itself). -/
def parsePyFloat (s : String) : Option PyDecimal :=
  let cs := pyStrip s.toList
  let sg := parseSign cs
  let ip := sg.2.takeWhile Char.isDigit
  let rest := sg.2.drop ip.length
  let fr : Option (List Char) :=
    match rest with
    | [] => if ip = [] then none else some []
    | '.' :: t =>
        if t.all Char.isDigit ∧ (ip ≠ [] ∨ t ≠ []) then some t else none
    | _ => none
  match fr with
  | none => none
  | some t =>
      let ns := stripTrailingZeros (digitsToNat (ip ++ t)) t.length
      if natDigits ns.1 ≤ 15 ∧ ns.2 ≤ 300 then some ⟨sg.1, ns.1, ns.2⟩
      else none

/-- Positional decimal formatting of num / 10 to the scale, as CPython
str: an integral value prints with a trailing .0, a fractional one prints
its integer part, a dot, and the zero-padded fraction digits. -/
def decimalPositional (neg : Bool) (num scale : Nat) : String :=
  let sign := if neg then "-" else ""
  if scale = 0 then sign ++ toString num ++ ".0"
  else
    let fs := toString (num % 10 ^ scale)
    let pad := String.mk (List.replicate (scale - fs.length) '0')
    sign ++ toString (num / 10 ^ scale) ++ "." ++ pad ++ fs

/-- Scientific decimal formatting, as CPython str for magnitudes below
one ten-thousandth: one leading digit, a dot and the remaining digits if
any, then the letter e, a minus sign and a two-digit-minimum exponent. -/
def decimalScientific (neg : Bool) (num scale : Nat) : String :=
  let sign := if neg then "-" else ""
  let ds := toString num
  let mant := if ds.length = 1 then ds else ds.take 1 ++ "." ++ ds.drop 1
  let ex := scale + 1 - ds.length
  let exs := if ex < 10 then "0" ++ toString ex else toString ex
  sign ++ mant ++ "e-" ++ exs

/-- str(float) on an exact decimal, following the CPython repr rule:
scientific notation exactly when the decimal exponent is below minus four
(the high side, exponent sixteen and up, is unreachable under the
fifteen-significant-digit bound of parsePyFloat). -/
def pyFloatStr (d : PyDecimal) : String :=
  if d.num ≠ 0 ∧ natDigits d.num + 3 < d.scale then
    decimalScientific d.neg d.num d.scale
  else decimalPositional d.neg d.num d.scale

/-- SettingNumeric._validate (settings.py lines 440-451): the expected
type is float exactly when str(self.value) contains a dot; the popup text
is then parsed with float or int and on success text_type of the result is
assigned to the value property (SettingItem.commit); a ValueError is
caught and the method returns with the value untouched. -/
def SettingNumeric.validate (it : SettingItem) (p : SettingsPanel) (input : String) :
    SettingItem × SettingsPanel × List Event :=
  let is_float := (pyStrOfValue it.value).toList.contains '.'
  let parsed : Option String :=
    if is_float then (parsePyFloat input).map pyFloatStr
    else (parsePyInt input).map (fun n => toString n)
  match parsed with
  | none => (it, p, [])
  | some newv => SettingItem.commit it p newv

/-- The setting classes a Settings instance registers in its _types table
at construction (settings.py lines 618-623); register_type can bind other
classes, so the loader below takes the table as a parameter. -/
inductive EntryCls where
  | str
  | bool
  | numeric
  | options
  | title
  | path
  deriving DecidableEq

/-- A schema record, a JSON object parsed to a string-keyed mapping.  The
field values are only ever passed through to the entry constructor
uninterpreted (or, for the type field, used as a registry key, a string in
every registered binding), so they are modelled as atoms. -/
abbrev Record := List (String × String)

def lookupField (r : Record) (k : String) : Option String :=
  (r.find? (fun e => e.1 == k)).map (fun e => e.2)

/-- del setting of the type field (settings.py line 691) followed by the
str key coercion (lines 692-694, the identity on keys that are already
strings). -/
def stripType (r : Record) : Record :=
  r.filter (fun e => !(e.1 == "type"))

def lookupType (types : List (String × EntryCls)) (t : String) : Option EntryCls :=
  (types.find? (fun e => e.1 == t)).map (fun e => e.2)

def defaultTypes : List (String × EntryCls) :=
  [("string", EntryCls.str), ("bool", EntryCls.bool),
   ("numeric", EntryCls.numeric), ("options", EntryCls.options),
   ("title", EntryCls.title), ("path", EntryCls.path)]

/-- An entry as constructed by the loader: the resolved class applied to
the remaining record fields (settings.py line 696). -/
structure BuiltEntry where
  cls : EntryCls
  args : List (String × String)
  deriving DecidableEq

/-- The construction errors of Settings.create_json_panel, in the order
the source raises them (lines 669-670, 676-677, 682-683, 685-688).  The
spec names missingType and notAList SchemaFormatError, unknownType
UnknownTypeError, and invalidInput InvalidInputError. -/
inductive LoadError where
  | invalidInput
  | notAList
  | missingType
  | unknownType (tag : String)
  deriving DecidableEq

/-- A parsed JSON document as far as the loader inspects it: either a
top-level list of records, or anything else. -/
inductive Json where
  | list (records : List Record)
  | other
  deriving DecidableEq

/-- One iteration of the loader loop on a single record, as a partial
construction: the record must carry a type field whose tag resolves in the
registry, and the entry is then the resolved class applied to the record
without its type field. -/
def buildOne (types : List (String × EntryCls)) (r : Record) : Option BuiltEntry :=
  match lookupField r "type" with
  | none => none
  | some t =>
      match lookupType types t with
      | none => none
      | some cls => some ⟨cls, stripType r⟩

/-- The error a single record trips in the loader loop, if any: a missing
type field raises the missing-type ValueError, an unregistered tag the
unknown-type ValueError. -/
def recordError (types : List (String × EntryCls)) (r : Record) : Option LoadError :=
  match lookupField r "type" with
  | none => some LoadError.missingType
  | some t =>
      match lookupType types t with
      | none => some (LoadError.unknownType t)
      | some _ => none

/-- The loader loop of Settings.create_json_panel (settings.py lines
680-699): records are processed in order, each appending its entry to the
panel; a missing type field or an unregistered tag raises at once, and the
exception discards the partly built panel (so an error result carries no
entries). -/
def buildEntries (types : List (String × EntryCls)) :
    List Record → Except LoadError (List BuiltEntry)
  | [] => .ok []
  | r :: rs =>
      match lookupField r "type" with
      | none => .error LoadError.missingType
      | some t =>
          match lookupType types t with
          | none => .error (LoadError.unknownType t)
          | some cls =>
              match buildEntries types rs with
              | .error e => .error e
              | .ok es => .ok (⟨cls, stripType r⟩ :: es)

/-- The top-level type check of the parsed JSON (settings.py lines
676-677) followed by the loader loop.  The panel is represented by its
ordered entry list; its title and config are threaded through unchanged by
the source and play no part in the construction logic. -/
def buildPanel (types : List (String × EntryCls)) (j : Json) :
    Except LoadError (List BuiltEntry) :=
  match j with
  | .other => .error LoadError.notAList
  | .list records => buildEntries types records

/-- Settings.create_json_panel (settings.py lines 668-701): with neither a
filename nor raw data, raise; with a filename, parse the file contents
(here the already-parsed document standing for the named file) whether or
not data was also given; otherwise parse the raw data. -/
def create_json_panel (types : List (String × EntryCls))
    (filename : Option Json) (data : Option Json) :
    Except LoadError (List BuiltEntry) :=
  match filename, data with
  | none, none => .error LoadError.invalidInput
  | some f, _ => buildPanel types f
  | none, some d => buildPanel types d

/-- ContentPanel (settings.py lines 575-604), reduced to the state its
panel management consults: the uid-to-panel mapping (DictProperty), the
attached widget children of its inner container (newest first, as Kivy
add_widget inserts at the front), and the current panel and its uid
(default None and 0).  Panels and widgets are identified by numeric uids. -/
structure ContentPanelState where
  panels : List (Nat × Nat)
  children : List Nat
  current_panel : Option Nat
  current_panel_uid : Nat
  deriving DecidableEq

def lookupNat (d : List (Nat × Nat)) (k : Nat) : Option Nat :=
  (d.find? (fun e => e.1 == k)).map (fun e => e.2)

/-- Python dict assignment: replace the binding when the key is present,
append it otherwise. -/
def dictInsert (d : List (Nat × Nat)) (k v : Nat) : List (Nat × Nat) :=
  if (d.find? (fun e => e.1 == k)).isSome then
    d.map (fun e => if e.1 == k then (k, v) else e)
  else d ++ [(k, v)]

/-- ContentPanel.add_widget (settings.py lines 597-601) with the inner
container present (the built widget tree): delegate to the container,
which prepends to its children. -/
def ContentPanel.add_widget (s : ContentPanelState) (w : Nat) : ContentPanelState :=
  { s with children := w :: s.children }

/-- ContentPanel.remove_widget (settings.py lines 603-604): remove the
widget from the inner container. -/
def ContentPanel.remove_widget (s : ContentPanelState) (w : Nat) : ContentPanelState :=
  { s with children := s.children.erase w }

/-- ContentPanel.switch_to_panel (settings.py lines 586-595): when the uid
is known, detach the current panel if any, attach the panel registered
under the uid, record it and its uid as current, and return True; when the
uid is unknown, return False and change nothing. -/
def ContentPanel.switch_to_panel (s : ContentPanelState) (uid : Nat) :
    ContentPanelState × Bool :=
  match lookupNat s.panels uid with
  | none => (s, false)
  | some newPanel =>
      let s1 :=
        match s.current_panel with
        | none => s
        | some cur => ContentPanel.remove_widget s cur
      let s2 := ContentPanel.add_widget s1 newPanel
      ({ s2 with current_panel := some newPanel, current_panel_uid := uid }, true)

/-- ContentPanel.add_panel (settings.py lines 581-584): register the panel
under its uid; switch to it exactly when no panel was selected yet (the
current uid is still the falsy 0). -/
def ContentPanel.add_panel (s : ContentPanelState) (panel uid : Nat) :
    ContentPanelState :=
  let s1 := { s with panels := dictInsert s.panels uid panel }
  if s1.current_panel_uid = 0 then (ContentPanel.switch_to_panel s1 uid).1
  else s1

inductive PanelError where
  | capacity
  deriving DecidableEq

/-- ContentNoMenu.add_widget (settings.py lines 750-755): with the inner
container present, raise when it already holds a widget, before anything
is mutated; otherwise behave as ContentPanel.add_widget. -/
def ContentNoMenu.add_widget (s : ContentPanelState) (w : Nat) :
    Except PanelError ContentPanelState :=
  if 0 < s.children.length then .error PanelError.capacity
  else .ok (ContentPanel.add_widget s w)

/-- ContentPanel.switch_to_panel as inherited by ContentNoMenu: the
self.add_widget call dispatches to the ContentNoMenu override, so the
exception it may raise propagates. -/
def ContentNoMenu.switch_to_panel (s : ContentPanelState) (uid : Nat) :
    Except PanelError (ContentPanelState × Bool) :=
  match lookupNat s.panels uid with
  | none => .ok (s, false)
  | some newPanel =>
      let s1 :=
        match s.current_panel with
        | none => s
        | some cur => ContentPanel.remove_widget s cur
      match ContentNoMenu.add_widget s1 newPanel with
      | .error e => .error e
      | .ok s2 =>
          .ok ({ s2 with current_panel := some newPanel,
                         current_panel_uid := uid }, true)

/-- ContentPanel.add_panel as inherited by ContentNoMenu: register the
panel, and switch to it only when no panel was selected yet; the switch,
and with it the capacity check, runs only in that first-panel case. -/
def ContentNoMenu.add_panel (s : ContentPanelState) (panel uid : Nat) :
    Except PanelError ContentPanelState :=
  let s1 := { s with panels := dictInsert s.panels uid panel }
  if s1.current_panel_uid = 0 then
    match ContentNoMenu.switch_to_panel s1 uid with
    | .error e => .error e
    | .ok r => .ok r.1
  else .ok s1

/-! ## Claim theorems -/

/-- C1: for an entry with a bound section and key, on a panel with a
config and a Settings container attached, committing a new value that
differs from the currently stored value produces exactly the trace one
store read, then one ConfigStore.set of the new value, then one
ConfigStore.write flush, then one on_config_change notification carrying
the config reference, section, key and new value, in that order. -/
theorem commit_changed_single_write_flush_notify
    (it : SettingItem) (p : SettingsPanel) (c : ConfigParser) (v : String)
    (hc : p.config = some c) (hst : p.hasSettings = true)
    (hs : it.sec ≠ "") (hk : it.key ≠ "")
    (hnew : it.value ≠ some v)
    (hdiff : ConfigParser.get c it.sec it.key ≠ some v) :
    (SettingItem.commit it p v).2.2 =
      [Event.get it.sec it.key, Event.set it.sec it.key v, Event.write,
       Event.configChange (some (ConfigParser.set c it.sec it.key v))
         it.sec it.key v] := by
  simp [SettingItem.commit, SettingItem.on_value, SettingsPanel.set_value,
        SettingsPanel.get_value, hc, hst, hs, hk, hnew, hdiff]

theorem commit_changed_single_write_flush_notify_witness :
    (SettingItem.commit ⟨"s", "k", some "v"⟩ ⟨some ⟨[(("s", "k"), "v")]⟩, true⟩
        "w").2.2 =
      [Event.get "s" "k", Event.set "s" "k" "w", Event.write,
       Event.configChange (some (ConfigParser.set ⟨[(("s", "k"), "v")]⟩
         "s" "k" "w")) "s" "k" "w"] :=
  commit_changed_single_write_flush_notify ⟨"s", "k", some "v"⟩
    ⟨some ⟨[(("s", "k"), "v")]⟩, true⟩ ⟨[(("s", "k"), "v")]⟩ "w"
    rfl rfl (by decide) (by decide) (by decide) (by decide)

/-- C2: committing a value equal to the value currently stored for the
bound section and key causes zero ConfigStore.set calls, zero
ConfigStore.write calls and zero on_config_change notifications, whatever
the state of the entry (either the value property does not change and
nothing is dispatched, or set_value reads the store, finds the value equal
and returns before writing). -/
theorem commit_equal_stored_silent
    (it : SettingItem) (p : SettingsPanel) (c : ConfigParser) (v : String)
    (hc : p.config = some c)
    (hv : ConfigParser.get c it.sec it.key = some v) :
    countSet (SettingItem.commit it p v).2.2 = 0 ∧
    countWrite (SettingItem.commit it p v).2.2 = 0 ∧
    countChange (SettingItem.commit it p v).2.2 = 0 := by
  by_cases h1 : it.value = some v
  · simp [SettingItem.commit, h1, countSet, countWrite, countChange]
  · by_cases h2 : it.sec = "" ∨ it.key = ""
    · simp [SettingItem.commit, SettingItem.on_value, h1, h2,
            countSet, countWrite, countChange]
    · simp [SettingItem.commit, SettingItem.on_value, SettingsPanel.set_value,
            SettingsPanel.get_value, h1, h2, hc, hv,
            countSet, countWrite, countChange, List.filter,
            Event.isSet, Event.isWrite, Event.isChange]

theorem commit_equal_stored_silent_witness :
    countSet (SettingItem.commit ⟨"s", "k", some "v"⟩
        ⟨some ⟨[(("s", "k"), "v")]⟩, true⟩ "v").2.2 = 0 ∧
    countWrite (SettingItem.commit ⟨"s", "k", some "v"⟩
        ⟨some ⟨[(("s", "k"), "v")]⟩, true⟩ "v").2.2 = 0 ∧
    countChange (SettingItem.commit ⟨"s", "k", some "v"⟩
        ⟨some ⟨[(("s", "k"), "v")]⟩, true⟩ "v").2.2 = 0 :=
  commit_equal_stored_silent ⟨"s", "k", some "v"⟩
    ⟨some ⟨[(("s", "k"), "v")]⟩, true⟩ ⟨[(("s", "k"), "v")]⟩ "v" rfl (by decide)

/-- C7 counterexample: constructing an entry bound to section s and key k
against a store holding v there performs two ConfigStore.get reads, not
exactly one: the initializing read, plus the redundant-write check that
the value-change observer triggers through set_value. -/
theorem init_single_read_refuted :
    countGet (SettingItem.init ⟨some ⟨[(("s", "k"), "v")]⟩, true⟩
        "s" "k").2.2 = 2 ∧
    countGet (SettingItem.init ⟨some ⟨[(("s", "k"), "v")]⟩, true⟩
        "s" "k").2.2 ≠ 1 := by
  constructor <;> decide

/-- C7 amended: for an entry with a bound section and key, on a panel
whose config holds a value for them, construction performs exactly two
ConfigStore.get reads and nothing else (no set, no write, no
notification), and the entry value after construction equals the value the
initial read returned; the second read is the no-change comparison in
set_value, fired by the value property observer. -/
theorem init_two_reads_reflects_store
    (p : SettingsPanel) (c : ConfigParser) (sec key v : String)
    (hc : p.config = some c) (hv : ConfigParser.get c sec key = some v)
    (hs : sec ≠ "") (hk : key ≠ "") :
    SettingItem.init p sec key =
      (⟨sec, key, some v⟩, p, [Event.get sec key, Event.get sec key]) := by
  simp [SettingItem.init, SettingItem.commit, SettingItem.on_value,
        SettingsPanel.set_value, SettingsPanel.get_value, hc, hv, hs, hk]

theorem init_two_reads_reflects_store_witness :
    SettingItem.init ⟨some ⟨[(("s", "k"), "v")]⟩, true⟩ "s" "k" =
      (⟨"s", "k", some "v"⟩, ⟨some ⟨[(("s", "k"), "v")]⟩, true⟩,
       [Event.get "s" "k", Event.get "s" "k"]) :=
  init_two_reads_reflects_store ⟨some ⟨[(("s", "k"), "v")]⟩, true⟩
    ⟨[(("s", "k"), "v")]⟩ "s" "k" "v" rfl (by decide) (by decide) (by decide)

/-- C9: switching to a uid that is not registered in the panels mapping
returns False and leaves the container state, in particular the current
panel and the selected uid, unchanged; the no-menu variant behaves the
same and raises nothing. -/
theorem switch_to_panel_unknown_uid
    (s : ContentPanelState) (uid : Nat)
    (h : lookupNat s.panels uid = none) :
    ContentPanel.switch_to_panel s uid = (s, false) ∧
    ContentNoMenu.switch_to_panel s uid = .ok (s, false) := by
  constructor
  · simp [ContentPanel.switch_to_panel, h]
  · simp [ContentNoMenu.switch_to_panel, h]

theorem switch_to_panel_unknown_uid_witness :
    ContentPanel.switch_to_panel ⟨[(1, 10)], [10], some 10, 1⟩ 5 =
      (⟨[(1, 10)], [10], some 10, 1⟩, false) ∧
    ContentNoMenu.switch_to_panel ⟨[(1, 10)], [10], some 10, 1⟩ 5 =
      .ok (⟨[(1, 10)], [10], some 10, 1⟩, false) :=
  switch_to_panel_unknown_uid ⟨[(1, 10)], [10], some 10, 1⟩ 5 (by decide)

/-- C10: on a panel with no config attached but a Settings container
attached, set_value performs no store read (get_value returns None without
consulting any store), no set and no write, and still dispatches exactly
the on_config_change notification carrying the absent config reference,
section, key and new value; the panel state is unchanged. -/
theorem set_value_without_config
    (p : SettingsPanel) (sec key v : String)
    (hc : p.config = none) (hst : p.hasSettings = true) :
    SettingsPanel.set_value p sec key v =
      (p, [Event.configChange none sec key v]) := by
  simp [SettingsPanel.set_value, SettingsPanel.get_value, hc, hst]

theorem set_value_without_config_witness :
    SettingsPanel.set_value ⟨none, true⟩ "s" "k" "w" =
      (⟨none, true⟩, [Event.configChange none "s" "k" "w"]) :=
  set_value_without_config ⟨none, true⟩ "s" "k" "w" rfl rfl

/-- C5: numeric validation.  When the current value contains no dot, an
input accepted by int yields the canonical integer string as the new
value; when it contains a dot, an input accepted by float yields the float
formatting of the parsed value; concretely, prior 3 with input 5 yields 5,
prior 3.0 with input 5 yields 5.0; and when the input parses in neither
applicable mode, the entry, the panel and the trace are untouched (so in
particular no store write occurs), concretely so for input abc. -/
theorem numeric_validate_behavior :
    (∀ it p input n, (pyStrOfValue it.value).toList.contains '.' = false →
        parsePyInt input = some n →
        (SettingNumeric.validate it p input).1.value = some (toString n)) ∧
    (∀ it p input d, (pyStrOfValue it.value).toList.contains '.' = true →
        parsePyFloat input = some d →
        (SettingNumeric.validate it p input).1.value = some (pyFloatStr d)) ∧
    (∀ p, (SettingNumeric.validate ⟨"s", "k", some "3"⟩ p "5").1.value =
        some "5") ∧
    (∀ p, (SettingNumeric.validate ⟨"s", "k", some "3.0"⟩ p "5").1.value =
        some "5.0") ∧
    (∀ it p input,
        ((pyStrOfValue it.value).toList.contains '.' = true →
          parsePyFloat input = none) →
        ((pyStrOfValue it.value).toList.contains '.' = false →
          parsePyInt input = none) →
        SettingNumeric.validate it p input = (it, p, [])) ∧
    (∀ p, SettingNumeric.validate ⟨"s", "k", some "3"⟩ p "abc" =
        (⟨"s", "k", some "3"⟩, p, [])) ∧
    (∀ p, SettingNumeric.validate ⟨"s", "k", some "3.0"⟩ p "abc" =
        (⟨"s", "k", some "3.0"⟩, p, [])) := by
  refine ⟨?_, ?_, fun p => rfl, fun p => rfl, ?_, fun p => rfl, fun p => rfl⟩
  · intro it p input n hdot hp
    simp only [SettingNumeric.validate, hdot, Bool.false_eq_true, if_false,
      hp, Option.map_some]
    by_cases h : it.value = some (toString n) <;>
      simp [SettingItem.commit, h]
  · intro it p input d hdot hp
    simp only [SettingNumeric.validate, hdot, if_true, hp, Option.map_some]
    by_cases h : it.value = some (pyFloatStr d) <;>
      simp [SettingItem.commit, h]
  · intro it p input hf hi
    by_cases hdot : (pyStrOfValue it.value).toList.contains '.' = true
    · have hmem : '.' ∈ (pyStrOfValue it.value).data := by simpa using hdot
      simp [SettingNumeric.validate, hmem, hf hdot]
    · simp only [Bool.not_eq_true] at hdot
      have hmem : '.' ∉ (pyStrOfValue it.value).data := by simpa using hdot
      simp [SettingNumeric.validate, hmem, hi hdot]

theorem numeric_validate_behavior_witness :
    (SettingNumeric.validate ⟨"s", "k", some "3"⟩ ⟨none, false⟩ "5").1.value =
      some (toString (5 : Int)) :=
  numeric_validate_behavior.1 ⟨"s", "k", some "3"⟩ ⟨none, false⟩ "5" 5
    (by decide) (by decide)

/-- C3: a schema that loads successfully yields exactly one entry per
record, in schema order: the entry at index i is the one built from the
record at index i (its registered class applied to the record without its
type field). -/
theorem create_json_panel_preserves_order
    (types : List (String × EntryCls)) (records : List Record)
    (entries : List BuiltEntry)
    (h : create_json_panel types none (some (Json.list records)) = .ok entries) :
    entries.length = records.length ∧
    ∀ i (hi : i < entries.length) (hr : i < records.length),
      buildOne types (records.get ⟨i, hr⟩) = some (entries.get ⟨i, hi⟩) := by
  have h' : buildEntries types records = .ok entries := by
    simpa [create_json_panel, buildPanel] using h
  clear h
  induction records generalizing entries with
  | nil =>
      simp only [buildEntries] at h'
      cases h'
      exact ⟨rfl, fun i hi hr => absurd hi (by simp)⟩
  | cons r rs ih =>
      cases hlf : lookupField r "type" with
      | none => simp [buildEntries, hlf] at h'
      | some t =>
          cases hlt : lookupType types t with
          | none => simp [buildEntries, hlf, hlt] at h'
          | some cls =>
              cases hbe : buildEntries types rs with
              | error e => simp [buildEntries, hlf, hlt, hbe] at h'
              | ok es =>
                  simp only [buildEntries, hlf, hlt, hbe,
                    Except.ok.injEq] at h'
                  subst h'
                  obtain ⟨hlen, hidx⟩ := ih es hbe
                  refine ⟨by simp [hlen], ?_⟩
                  intro i hi hr
                  cases i with
                  | zero => simp [buildOne, hlf, hlt]
                  | succ n =>
                      simpa using hidx n (by simpa using hi) (by simpa using hr)

theorem create_json_panel_preserves_order_witness :
    ([⟨EntryCls.bool, [("title", "x")]⟩, ⟨EntryCls.title, []⟩] :
        List BuiltEntry).length =
      ([[("type", "bool"), ("title", "x")], [("type", "title")]] :
        List Record).length :=
  (create_json_panel_preserves_order defaultTypes
    [[("type", "bool"), ("title", "x")], [("type", "title")]]
    [⟨EntryCls.bool, [("title", "x")]⟩, ⟨EntryCls.title, []⟩] rfl).1

/-- The loader loop fails with the error of the first bad record: with
every earlier record clean, a record with a missing type field or an
unregistered tag makes buildEntries return exactly that error. -/
theorem buildEntries_first_error
    (types : List (String × EntryCls)) (pre : List Record) (r : Record)
    (post : List Record) (e : LoadError)
    (hpre : ∀ x ∈ pre, recordError types x = none)
    (hr : recordError types r = some e) :
    buildEntries types (pre ++ r :: post) = .error e := by
  induction pre with
  | nil =>
      simp only [List.nil_append]
      cases hlf : lookupField r "type" with
      | none =>
          simp only [recordError, hlf, Option.some.injEq] at hr
          subst hr
          simp [buildEntries, hlf]
      | some t =>
          cases hlt : lookupType types t with
          | none =>
              simp only [recordError, hlf, hlt, Option.some.injEq] at hr
              subst hr
              simp [buildEntries, hlf, hlt]
          | some cls => simp [recordError, hlf, hlt] at hr
  | cons q qs ih =>
      have hq := hpre q (by simp)
      simp only [List.cons_append]
      cases hlf : lookupField q "type" with
      | none => simp [recordError, hlf] at hq
      | some t =>
          cases hlt : lookupType types t with
          | none => simp [recordError, hlf, hlt] at hq
          | some cls =>
              have hrec := ih (fun x hx => hpre x (by simp [hx]))
              simp [buildEntries, hlf, hlt, hrec]

/-- C4: schema loading is fail-fast and all-or-nothing.  If any record of
the schema lacks a type field or carries an unregistered tag, then with
the records before the first such bad one all clean, the whole load
returns exactly the error of that record, a missing-type schema error or
an unknown-type error respectively, and no panel (in particular none of
the entries built from the earlier records) is returned. -/
theorem create_json_panel_fail_fast
    (types : List (String × EntryCls)) (pre : List Record) (r : Record)
    (post : List Record) (e : LoadError)
    (hpre : ∀ x ∈ pre, recordError types x = none)
    (hr : recordError types r = some e) :
    create_json_panel types none (some (Json.list (pre ++ r :: post))) =
      .error e ∧
    (e = LoadError.missingType ∨ ∃ t, e = LoadError.unknownType t) := by
  refine ⟨?_, ?_⟩
  · simp only [create_json_panel, buildPanel]
    exact buildEntries_first_error types pre r post e hpre hr
  · cases hlf : lookupField r "type" with
    | none =>
        simp only [recordError, hlf, Option.some.injEq] at hr
        exact Or.inl hr.symm
    | some t =>
        cases hlt : lookupType types t with
        | none =>
            simp only [recordError, hlf, hlt, Option.some.injEq] at hr
            exact Or.inr ⟨t, hr.symm⟩
        | some cls => simp [recordError, hlf, hlt] at hr

theorem create_json_panel_fail_fast_witness :
    create_json_panel defaultTypes none
        (some (Json.list
          [[("type", "bool"), ("title", "x")], [("type", "color")],
           [("type", "title")]])) =
      .error (LoadError.unknownType "color") ∧
    (LoadError.unknownType "color" = LoadError.missingType ∨
      ∃ t, LoadError.unknownType "color" = LoadError.unknownType t) :=
  create_json_panel_fail_fast defaultTypes
    [[("type", "bool"), ("title", "x")]] [("type", "color")]
    [[("type", "title")]] (LoadError.unknownType "color")
    (by decide) (by decide)

/-- C8 counterexample: calling the loader with both a file (here one whose
contents parse to the empty list) and raw data (here data that would fail
the top-level list check if it were used) raises no InvalidInputError at
all: the call succeeds, using the file and ignoring the data. -/
theorem both_sources_no_error :
    create_json_panel defaultTypes (some (Json.list [])) (some Json.other) =
      .ok [] := rfl

/-- C8 amended: the loader fails with InvalidInputError exactly when
neither a filename nor raw data is supplied; when a filename is supplied,
the file is loaded whether or not data was also given (the data is
ignored, with no error); when only data is supplied, the data is
loaded. -/
theorem create_json_panel_source_selection
    (types : List (String × EntryCls)) (f d0 : Json) (d : Option Json) :
    create_json_panel types none none = .error LoadError.invalidInput ∧
    create_json_panel types (some f) d = buildPanel types f ∧
    create_json_panel types none (some d0) = buildPanel types d0 := by
  refine ⟨rfl, ?_, rfl⟩
  cases d <;> rfl

/-- C6 counterexample: on a no-menu content whose container already shows
panel 10 under uid 1, add_panel with a second panel 20 under uid 2 does
not fail with any capacity error: it returns normally, merely registering
the second panel, with the first panel still the attached and visible
one. -/
theorem nomenu_second_add_panel_no_error :
    ContentNoMenu.add_panel ⟨[(1, 10)], [10], some 10, 1⟩ 20 2 =
      .ok ⟨[(1, 10), (2, 20)], [10], some 10, 1⟩ := rfl

/-- C6 amended: once a first panel is selected (current uid non-zero),
add_panel on the no-menu content registers any further panel without
attaching it and raises no error, leaving the attached children and the
current panel unchanged; the capacity error is raised by the add_widget
override when a second widget is attached directly while one is already
attached, and it is raised before anything is mutated. -/
theorem nomenu_second_panel_behavior
    (s : ContentPanelState) (w panel uid : Nat)
    (hcur : s.current_panel_uid ≠ 0) (hch : s.children ≠ []) :
    ContentNoMenu.add_panel s panel uid =
      .ok { s with panels := dictInsert s.panels uid panel } ∧
    ContentNoMenu.add_widget s w = .error PanelError.capacity := by
  constructor
  · simp [ContentNoMenu.add_panel, hcur]
  · simp [ContentNoMenu.add_widget, List.length_pos.mpr hch]

theorem nomenu_second_panel_behavior_witness :
    ContentNoMenu.add_panel ⟨[(1, 10)], [10], some 10, 1⟩ 30 3 =
      .ok ⟨[(1, 10), (3, 30)], [10], some 10, 1⟩ ∧
    ContentNoMenu.add_widget ⟨[(1, 10)], [10], some 10, 1⟩ 30 =
      .error PanelError.capacity :=
  nomenu_second_panel_behavior ⟨[(1, 10)], [10], some 10, 1⟩ 30 30 3
    (by decide) (by decide)

end KivySettings
